import Mathlib

set_option maxRecDepth 8192

/-!
Shallow embedding of the status-change detection and noise-suppression core
of battstatus.cpp (monitor loop of main, ComparePowerStatus, the revival and
resume suppression blocks, the average-lifetime block and the one-liner
decision chain), together with proofs of the specified properties.

Machine integers: DWORD values are modelled as Nat reduced mod 2^32 where the
source does unsigned arithmetic that can wrap (subtraction of tick counts,
the cast of the converted wake time).  ULONGLONG values fit in Nat directly;
the only ULONGLONG subtraction in the modelled code is guarded by a
comparison in the source, so it never wraps.
-/

namespace Battstatus

/-- 2^32, the modulus of DWORD arithmetic. -/
def DWORD_MOD : Nat := 4294967296

/-- Reduce a natural number to a DWORD value. -/
def dword (a : Nat) : Nat := a % DWORD_MOD

/-- DWORD subtraction a - b with unsigned wraparound, as in the source
expressions like GetTickCount() - ticks.back(). -/
def dsub (a b : Nat) : Nat := (dword a + DWORD_MOD - dword b) % DWORD_MOD

/-- SYSTEM_POWER_STATUS: the snapshot struct, with exactly the fields the
source reads and compares.  BatteryFlag is the raw flag byte; ACLineStatus
the raw status byte. -/
structure SYSTEM_POWER_STATUS where
  ACLineStatus : Nat
  BatteryFlag : Nat
  BatteryLifePercent : Nat
  SystemStatusFlag : Nat
  BatteryLifeTime : Nat
  BatteryFullLifeTime : Nat
deriving DecidableEq

/-- SPSF_BATTERYCHARGING (8). -/
def SPSF_BATTERYCHARGING : Nat := 8

/-- SPSF_BATTERYNOBATTERY (128). -/
def SPSF_BATTERYNOBATTERY : Nat := 128

/-- LIFETIME_UNKNOWN, the (DWORD)-1 sentinel. -/
def LIFETIME_UNKNOWN : Nat := 4294967295

/-- CHARGING(status) macro: BatteryFlag and SPSF_BATTERYCHARGING. -/
def CHARGING (s : SYSTEM_POWER_STATUS) : Bool :=
  s.BatteryFlag.land SPSF_BATTERYCHARGING != 0

/-- NO_BATTERY(status) macro: BatteryFlag and SPSF_BATTERYNOBATTERY. -/
def NO_BATTERY (s : SYSTEM_POWER_STATUS) : Bool :=
  s.BatteryFlag.land SPSF_BATTERYNOBATTERY != 0

/-- PLUGGED_IN(status) macro: ACLineStatus == 1. -/
def PLUGGED_IN (s : SYSTEM_POWER_STATUS) : Bool :=
  s.ACLineStatus == 1

/-- Result type of ComparePowerStatus. -/
inductive cpstype where
  | CPS_EQUAL
  | CPS_NOTEQUAL
deriving DecidableEq

/-- ComparePowerStatus: field-by-field comparison with early NOTEQUAL
return, in the source field order. -/
def ComparePowerStatus (a b : SYSTEM_POWER_STATUS) : cpstype :=
  if a.ACLineStatus ≠ b.ACLineStatus then .CPS_NOTEQUAL
  else if a.BatteryFlag ≠ b.BatteryFlag then .CPS_NOTEQUAL
  else if a.BatteryLifePercent ≠ b.BatteryLifePercent then .CPS_NOTEQUAL
  else if a.SystemStatusFlag ≠ b.SystemStatusFlag then .CPS_NOTEQUAL
  else if a.BatteryLifeTime ≠ b.BatteryLifeTime then .CPS_NOTEQUAL
  else if a.BatteryFullLifeTime ≠ b.BatteryFullLifeTime then .CPS_NOTEQUAL
  else .CPS_EQUAL

/-! ## Revival suppressor

The revival detection block of main.  The deque of charge-state change tick
counts is modelled as a list whose head is the deque front (oldest) and
whose last element is the deque back (newest). -/

/-- max_changes constant of the revival detection block. -/
def max_changes : Nat := 20

/-- span_minutes constant of the revival detection block. -/
def revival_span_minutes : Nat := 30

/-- State of the revival detection block: the static tick deque and the
suppress_charge_state global. -/
structure RevivalState where
  ticks : List Nat
  suppress_charge_state : Bool
deriving DecidableEq

/-- Initial revival state: empty deque, suppression off. -/
def revivalInit : RevivalState := ⟨[], false⟩

/-- The clearing step of the revival detection block: the deque is cleared
when it is non-empty and at least span_minutes passed since the last
charge state change. -/
def revivalClear (now : Nat) (ticks : List Nat) : List Nat :=
  match ticks.getLast? with
  | some b =>
      if revival_span_minutes * 60 * 1000 ≤ dsub now b then [] else ticks
  | none => ticks

/-- Update of the tick deque in the revival detection block: the clearing
step, then on a charge state change push the current tick, evicting the
oldest entry first when the deque already holds max_changes entries. -/
def revivalTicksUpdate (now : Nat) (chargingChanged : Bool)
    (ticks : List Nat) : List Nat :=
  if chargingChanged then
    (if (revivalClear now ticks).length = max_changes then
      (revivalClear now ticks).tail
     else revivalClear now ticks) ++ [now]
  else revivalClear now ticks

/-- One execution of the revival detection block.  Inputs: the verbose
level, the current tick count, and whether CHARGING(status) differs from
CHARGING(prev_status) this tick.  Output: the new state and whether the
warning block was entered this tick (the one-time RevivalWarning signal,
printed when not verbose or a full dump was shown). -/
def revivalStep (verbose : Nat) (now : Nat) (chargingChanged : Bool)
    (st : RevivalState) : RevivalState × Bool :=
  let ticks2 := revivalTicksUpdate now chargingChanged st.ticks
  if ticks2.length = max_changes then
    let elapsed_minutes := dsub (ticks2.getLastD 0) (ticks2.headD 0) / 1000 / 60
    if elapsed_minutes < revival_span_minutes then
      if st.suppress_charge_state then
        (⟨ticks2, true⟩, false)
      else
        (⟨ticks2, verbose == 0⟩, true)
    else (⟨ticks2, false⟩, false)
  else (⟨ticks2, false⟩, false)

/-- Run the revival block over a list of (tick count, charge-state-changed)
inputs from a given state, recording after each tick the state and the
warning signal. -/
def revivalRunFrom (verbose : Nat) (st : RevivalState) :
    List (Nat × Bool) → List (RevivalState × Bool)
  | [] => []
  | inp :: rest =>
    let r := revivalStep verbose inp.1 inp.2 st
    r :: revivalRunFrom verbose r.1 rest

/-- Run the revival block from the initial state. -/
def revivalRun (verbose : Nat) (inputs : List (Nat × Bool)) :
    List (RevivalState × Bool) :=
  revivalRunFrom verbose revivalInit inputs

/-! ## Resume suppressor

The resume detection block of main.  The two static ULONGLONG locals are
modelled as Option Nat, none standing for the (ULONGLONG)-1 sentinel they
are initialised with.  The lastwake input is an Option Nat, none standing
for a failed CallNtPowerInformation query. -/

/-- span_minutes constant of the resume detection block. -/
def resume_span_minutes : Nat := 3

/-- State of the resume detection block: the two static locals and the
suppress_lifetime global. -/
structure ResumeState where
  ignore_this_waketime : Option Nat
  prev_lastwake : Option Nat
  suppress_lifetime : Bool
deriving DecidableEq

/-- Initial resume state: both statics at their sentinel, suppression off. -/
def resumeInit : ResumeState := ⟨none, none, false⟩

/-- Result of one execution of the resume detection block. -/
structure ResumeOut where
  st : ResumeState
  recently_resumed : Bool
  warned : Bool

/-- One execution of the resume detection block.  Inputs: the verbose
level, whether a full dump was shown this tick, MaximumTimerInterval (100ns
units), the LastWakeTime query result (100ns units, none on failure) and
the current tick count.  The wake time is converted to a tick value by
removing the MaximumTimerInterval*2 + 10000 margin and dividing by 10000,
truncated to DWORD. -/
def resumeStep (verbose : Nat) (full_status_shown : Bool)
    (MaximumTimerInterval : Nat) (lastwake : Option Nat) (now : Nat)
    (st : ResumeState) : ResumeOut :=
  match lastwake with
  | none => ⟨{ st with suppress_lifetime := false }, false, false⟩
  | some lw =>
    let ignore0 := match st.ignore_this_waketime with
                   | none => lw
                   | some i => i
    if ignore0 ≠ lw then
      let mt := MaximumTimerInterval * 2 + 10000
      let waketick := dword ((if mt < lw then lw - mt else 0) / 10000)
      let elapsed_minutes := dsub now waketick / 1000 / 60
      if elapsed_minutes < resume_span_minutes then
        if full_status_shown ∨ st.prev_lastwake ≠ some lw then
          ⟨⟨some ignore0, some lw, verbose == 0⟩, true, true⟩
        else
          ⟨⟨some ignore0, st.prev_lastwake, verbose == 0⟩, true, false⟩
      else
        ⟨⟨some lw, st.prev_lastwake, false⟩, false, false⟩
    else
      ⟨⟨some ignore0, st.prev_lastwake, false⟩, false, false⟩

/-! ## Lifetime averager

The average-lifetime block of main.  The static deque of {lifetime, tick}
records is a list, head = deque front (oldest). -/

/-- One record of the average-lifetime deque: a lifetime in seconds and the
tick it was recorded at. -/
structure LifeData where
  lifetime : Nat
  tick : Nat
deriving DecidableEq

/-- Eviction loop of the average-lifetime block: scanning from the newest
entry backwards, the first entry older than lifetime_span_minutes and every
entry before it are erased.  Equivalently, keep the longest suffix of
entries at most span old. -/
def evictOld (span_minutes now : Nat) (deck : List LifeData) :
    List LifeData :=
  (deck.reverse.takeWhile
    (fun d => dsub now d.tick ≤ span_minutes * 60 * 1000)).reverse

/-- The guards applied after folding a sample into the newest entry:
a zero result becomes 1 and a LIFETIME_UNKNOWN result is decremented. -/
def blendGuard (v : Nat) : Nat :=
  if v = 0 then 1 else if v = LIFETIME_UNKNOWN then v - 1 else v

/-- One synthetic gap-filling entry derived from the current newest entry:
tick advanced one minute, lifetime reduced by 60 seconds floored at 1. -/
def synthNext (d : LifeData) : LifeData :=
  ⟨if 60 < d.lifetime then d.lifetime - 60 else 1, dword (d.tick + 60000)⟩

/-- The gap-filling loop: k iterations, each deriving a new entry from the
current back of the deque and pushing it. -/
def gapFill (k : Nat) (deck : List LifeData) : List LifeData :=
  match k with
  | 0 => deck
  | k + 1 =>
    match deck.getLast? with
    | none => deck
    | some b => gapFill k (deck ++ [synthNext b])

/-- Time-adjusted value of one entry, as of nowTick: the seconds elapsed
since the entry was recorded are subtracted, floored at 1. -/
def adjustedLifetime (nowTick : Nat) (d : LifeData) : Nat :=
  if dsub nowTick d.tick / 1000 < d.lifetime then
    d.lifetime - dsub nowTick d.tick / 1000
  else 1

/-- The unweighted average of the time-adjusted entries.  The source
accumulates (double)lifetime / deck.size() in a double and truncates to
DWORD; every intermediate value here is below 2^32 < 2^53 and the exact
real value of the sum divided by the size is sum / n, so the truncated
result is modelled exactly by Nat division. -/
def timeAdjustedAverage (nowTick : Nat) (deck : List LifeData) : Nat :=
  (deck.map (adjustedLifetime nowTick)).sum / deck.length

/-- One execution of the average-lifetime block body (the part guarded by
monitor and a nonzero lifetime_span_minutes).  Inputs: the span, whether a
resume was just detected, the sampled BatteryLifeTime and the current tick.
Output: the new deque and average_lifetime (LIFETIME_UNKNOWN when the deque
was invalidated). -/
def lifetimeStep (lifetime_span_minutes : Nat) (recently_resumed : Bool)
    (sample nowTick : Nat) (deck : List LifeData) :
    List LifeData × Nat :=
  if recently_resumed ∨ sample = 0 ∨ sample = LIFETIME_UNKNOWN then
    ([], LIFETIME_UNKNOWN)
  else
    let deck1 := evictOld lifetime_span_minutes nowTick deck
    let deck2 :=
      match deck1.getLast? with
      | some b =>
        if dsub nowTick b.tick < 60 * 1000 then
          deck1.dropLast ++
            [⟨blendGuard ((b.lifetime + sample) / 2), b.tick⟩]
        else
          gapFill (dsub nowTick b.tick / 1000 / 60 - 1) deck1 ++
            [⟨sample, nowTick⟩]
      | none => [⟨sample, nowTick⟩]
    (deck2, timeAdjustedAverage nowTick deck2)

/-- The six one-liner kinds of the decision chain at the bottom of the
monitor loop, with the data each line renders.  pluggedIn carries the
percent, the PLUGGED_IN and CHARGING booleans, and whether the power rate
is negative (which selects the word remaining over available). -/
inductive OneLiner where
  | noBatteryLine
  | suppressedPercent (pct : Nat)
  | fullyCharged
  | pluggedIn (pct : Nat) (plugged charging rateNegative : Bool)
  | lifetimeRemaining (seconds pct : Nat)
  | unknownPercent (pct : Nat)
deriving DecidableEq

/-- The one-liner decision chain, translated branch for branch from the
if/else chain of the source (NO_BATTERY, suppress_charge_state, fully
charged, charging or plugged in, lifetime, fallback), with
GetBatteryPowerRate() supplied as the rate input. -/
def decideOneLiner (s : SYSTEM_POWER_STATUS)
    (suppress_charge_state suppress_lifetime : Bool)
    (average_lifetime : Nat) (rate : Int) : OneLiner :=
  if NO_BATTERY s then .noBatteryLine
  else if suppress_charge_state then .suppressedPercent s.BatteryLifePercent
  else if s.BatteryLifePercent = 100 ∧
          (suppress_lifetime ∨ s.BatteryLifeTime = LIFETIME_UNKNOWN) ∧
          PLUGGED_IN s ∧ ¬CHARGING s ∧ rate = 0 then
    .fullyCharged
  else if CHARGING s ∨ PLUGGED_IN s then
    .pluggedIn s.BatteryLifePercent (PLUGGED_IN s) (CHARGING s)
      (decide (rate < 0))
  else if ¬suppress_lifetime ∧ s.BatteryLifeTime ≠ LIFETIME_UNKNOWN then
    .lifetimeRemaining
      (if average_lifetime ≠ LIFETIME_UNKNOWN then average_lifetime
       else s.BatteryLifeTime)
      s.BatteryLifePercent
  else .unknownPercent s.BatteryLifePercent

/-- Spec-side reporter chain, written from the words of spec section 4.5 as
the claim C5 states them, taken literally: branch 5 uses the averaged
lifetime whenever the averager is enabled, else the raw value. -/
def reporterSpecLiteral (noBatt revivalSuppressed : Bool) (pct : Nat)
    (resumeSuppressed : Bool) (rawLifetime : Nat)
    (plugged charging : Bool) (rate : Int)
    (averagerEnabled : Bool) (avg : Nat) : OneLiner :=
  if noBatt then .noBatteryLine
  else if revivalSuppressed then .suppressedPercent pct
  else if pct = 100 ∧ (resumeSuppressed ∨ rawLifetime = LIFETIME_UNKNOWN) ∧
          plugged ∧ ¬charging ∧ rate = 0 then
    .fullyCharged
  else if charging ∨ plugged then
    .pluggedIn pct plugged charging (decide (rate < 0))
  else if ¬resumeSuppressed ∧ rawLifetime ≠ LIFETIME_UNKNOWN then
    .lifetimeRemaining (if averagerEnabled then avg else rawLifetime) pct
  else .unknownPercent pct

/-- Spec-side reporter chain with the branch-5 value rule amended as the
code forces: the averaged lifetime is used when the averager is enabled and
produced a valid (non-Unknown) average this tick, else the raw value. -/
def reporterSpecAmended (noBatt revivalSuppressed : Bool) (pct : Nat)
    (resumeSuppressed : Bool) (rawLifetime : Nat)
    (plugged charging : Bool) (rate : Int)
    (averagerEnabled : Bool) (avg : Nat) : OneLiner :=
  if noBatt then .noBatteryLine
  else if revivalSuppressed then .suppressedPercent pct
  else if pct = 100 ∧ (resumeSuppressed ∨ rawLifetime = LIFETIME_UNKNOWN) ∧
          plugged ∧ ¬charging ∧ rate = 0 then
    .fullyCharged
  else if charging ∨ plugged then
    .pluggedIn pct plugged charging (decide (rate < 0))
  else if ¬resumeSuppressed ∧ rawLifetime ≠ LIFETIME_UNKNOWN then
    .lifetimeRemaining
      (if averagerEnabled ∧ avg ≠ LIFETIME_UNKNOWN then avg else rawLifetime)
      pct
  else .unknownPercent pct

/-! ## The whole monitor-loop tick

One iteration of the monitor loop, from a freshly fetched snapshot to the
one-liner decision.  The battery-saver console line (a purely presentational
extra line on Windows 10+) and the text rendering of the one-liner are not
part of the decision and are not modelled. -/

/-- Configuration of the engine: the verbose level, the
lifetime_span_minutes option (0 disables the averager) and the host
MaximumTimerInterval. -/
structure EngineConfig where
  verbose : Nat
  lifetime_span_minutes : Nat
  MaximumTimerInterval : Nat

/-- All mutable state the monitor loop carries across iterations. -/
structure EngineState where
  prev_status : SYSTEM_POWER_STATUS
  revival : RevivalState
  resume : ResumeState
  deck : List LifeData
deriving DecidableEq

/-- Initial engine state: prev_status zero-initialised, empty windows. -/
def engineInit : EngineState :=
  ⟨⟨0, 0, 0, 0, 0, 0⟩, revivalInit, resumeInit, []⟩

/-- Input of one tick: the fetched snapshot, the tick count, the
LastWakeTime query result and the battery power rate. -/
structure TickInput where
  status : SYSTEM_POWER_STATUS
  now : Nat
  lastwake : Option Nat
  rate : Int

/-- Output of one tick: whether the verbose full dump was shown, the
one-liner decision (none = nothing emitted), and the two one-time advisory
signals. -/
structure TickOutput where
  full_status_shown : Bool
  line : Option OneLiner
  revivalWarn : Bool
  resumeWarn : Bool

/-- One iteration of the monitor loop: verbose full-dump check, revival
block, resume block, average-lifetime block, the narrow change check (the
continue), then the one-liner decision chain. -/
def engineStep (cfg : EngineConfig) (st : EngineState) (inp : TickInput) :
    EngineState × TickOutput :=
  let prev := st.prev_status
  let s := inp.status
  let full_status_shown :=
    0 < cfg.verbose ∧ ComparePowerStatus prev s = .CPS_NOTEQUAL
  let rev := revivalStep cfg.verbose inp.now
    (CHARGING s ≠ CHARGING prev) st.revival
  let res := resumeStep cfg.verbose full_status_shown
    cfg.MaximumTimerInterval inp.lastwake inp.now st.resume
  let lt :=
    if cfg.lifetime_span_minutes ≠ 0 then
      lifetimeStep cfg.lifetime_span_minutes res.recently_resumed
        s.BatteryLifeTime inp.now st.deck
    else (st.deck, LIFETIME_UNKNOWN)
  let skip :=
    ¬full_status_shown ∧
    s.BatteryLifePercent = prev.BatteryLifePercent ∧
    (rev.1.suppress_charge_state ∨ CHARGING s = CHARGING prev) ∧
    NO_BATTERY s = NO_BATTERY prev ∧
    PLUGGED_IN s = PLUGGED_IN prev
  let line :=
    if skip then none
    else some (decideOneLiner s rev.1.suppress_charge_state
      res.st.suppress_lifetime lt.2 inp.rate)
  (⟨s, rev.1, res.st, lt.1⟩,
   ⟨decide full_status_shown, line, rev.2, res.warned⟩)

/-- Run the monitor loop over a list of tick inputs from a given state,
recording each tick output. -/
def engineRunFrom (cfg : EngineConfig) (st : EngineState) :
    List TickInput → List TickOutput
  | [] => []
  | inp :: rest =>
    let r := engineStep cfg st inp
    r.2 :: engineRunFrom cfg r.1 rest

/-- Run the monitor loop over a list of tick inputs from the initial
state, recording each tick output. -/
def engineRun (cfg : EngineConfig) (inputs : List TickInput) :
    List TickOutput :=
  engineRunFrom cfg engineInit inputs

/-- Run the monitor loop from a given state, recording the engine state
after each tick. -/
def engineStatesFrom (cfg : EngineConfig) (st : EngineState) :
    List TickInput → List EngineState
  | [] => []
  | inp :: rest =>
    let r := engineStep cfg st inp
    r.1 :: engineStatesFrom cfg r.1 rest

/-- Run the monitor loop from the initial state, recording the engine
state after each tick. -/
def engineStates (cfg : EngineConfig) (inputs : List TickInput) :
    List EngineState :=
  engineStatesFrom cfg engineInit inputs

/-! ## Helper lemmas -/

theorem comparePowerStatus_self (s : SYSTEM_POWER_STATUS) :
    ComparePowerStatus s s = .CPS_EQUAL := by
  simp [ComparePowerStatus]

theorem dsub_of_le {a b : Nat} (hba : b ≤ a) (ha : a < DWORD_MOD) :
    dsub a b = a - b := by
  have hb : b < DWORD_MOD := lt_of_le_of_lt hba ha
  unfold dsub dword
  rw [Nat.mod_eq_of_lt ha, Nat.mod_eq_of_lt hb]
  have hsplit : a + DWORD_MOD - b = DWORD_MOD + (a - b) := by omega
  rw [hsplit, Nat.add_mod_left, Nat.mod_eq_of_lt (by omega)]

/-! ## Claim theorems -/

/-- C9: comparing any snapshot with itself over the full field set yields
CPS_EQUAL, and consequently a monitor-loop tick whose fetched snapshot is
identical to the previous one shows no full dump and emits no one-liner,
whatever the configuration, engine state and other inputs. -/
theorem compare_idempotent_no_change :
    (∀ s : SYSTEM_POWER_STATUS, ComparePowerStatus s s = .CPS_EQUAL) ∧
    (∀ (cfg : EngineConfig) (st : EngineState) (now : Nat)
       (lastwake : Option Nat) (rate : Int),
      (engineStep cfg st ⟨st.prev_status, now, lastwake, rate⟩).2.line
          = none ∧
      (engineStep cfg st
          ⟨st.prev_status, now, lastwake, rate⟩).2.full_status_shown
          = false) := by
  refine ⟨comparePowerStatus_self, ?_⟩
  intro cfg st now lastwake rate
  constructor <;> simp [engineStep, comparePowerStatus_self]

/-- C1: revival suppression threshold.  Twenty charge-state transitions
spaced 91578 ms apart span 1739982 ms, just under 29 minutes: the
suppression flag turns active on the 20th transition tick.  The same
twenty transitions spaced 97894 ms apart span 1859986 ms, about 31
minutes: the suppression flag is never active (max_changes 20,
span_minutes 30, not verbose). -/
theorem revival_suppression_threshold :
    (revivalRun 0 ((List.range 20).map (fun i => (i * 91578, true)))).map
        (fun p => p.1.suppress_charge_state)
      = List.replicate 19 false ++ [true] ∧
    (revivalRun 0 ((List.range 20).map (fun i => (i * 97894, true)))).map
        (fun p => p.1.suppress_charge_state)
      = List.replicate 20 false := by
  decide

/-- C2 counterexample: feed 21 charge toggles 28 s apart, all within 10
minutes, at span 30 and max 20.  The claim says suppression becomes active
starting the 21st toggle tick, which would make the per-tick suppression
trace false on the first 20 ticks and true on the 21st; the code disagrees,
because the window already holds max_changes entries spanning under 30
minutes on the 20th toggle tick. -/
theorem revival_21st_toggle_refuted :
    ¬ ((revivalRun 0 ((List.range 21).map (fun i => (i * 28000, true)))).map
        (fun p => p.1.suppress_charge_state)
      = List.replicate 20 false ++ [true]) := by
  decide

/-- C2 amended: for 21 charge toggles within 10 minutes (span 30, max 20),
the 20th toggle tick causes the suppression flag to become true starting
that tick; exactly one RevivalWarning signal is emitted, on the transition
tick, and the signal is not repeated on the 21st toggle tick nor on later
quiet ticks while suppression remains active. -/
theorem revival_20th_toggle_suppresses :
    (revivalRun 0 (((List.range 21).map (fun i => (i * 28000, true))) ++
        [(600000, false), (660000, false)])).map
      (fun p => (p.1.suppress_charge_state, p.2))
    = List.replicate 19 (false, false) ++
      [(true, true)] ++ List.replicate 3 (true, false) := by
  decide

/-- C3: resume suppression windows, at MaximumTimerInterval 156250 (so the
conversion margin mt is 322500 100ns units) and not verbose.  A new wake
value of 98800322500 converts to tick 9880000, two minutes before the
current tick 10000000, and yields suppression; a wake value of 97600322500
converts to tick 9760000, four minutes before, and yields no suppression;
and on a freshly started engine the very first wake value observed is
recorded as the ignore baseline and never triggers suppression, whatever
the inputs. -/
theorem resume_suppression_windows :
    (resumeStep 0 false 156250 (some 98800322500) 10000000
        ⟨some 50000000, none, false⟩).st.suppress_lifetime = true ∧
    (resumeStep 0 false 156250 (some 97600322500) 10000000
        ⟨some 50000000, none, false⟩).st.suppress_lifetime = false ∧
    (∀ (verbose : Nat) (full_status_shown : Bool)
       (MaximumTimerInterval w now : Nat),
      (resumeStep verbose full_status_shown MaximumTimerInterval (some w)
          now resumeInit).st.suppress_lifetime = false ∧
      (resumeStep verbose full_status_shown MaximumTimerInterval (some w)
          now resumeInit).recently_resumed = false ∧
      (resumeStep verbose full_status_shown MaximumTimerInterval (some w)
          now resumeInit).st.ignore_this_waketime = some w) := by
  refine ⟨by decide, by decide, ?_⟩
  intro verbose full_status_shown MaximumTimerInterval w now
  simp [resumeStep, resumeInit]

/-- C6 counterexample: a freshly started engine fed the snapshot sequence
100 percent charging plugged-in, the same again, then 99 percent charging
plugged-in, does not produce the decisions EmitNothing, EmitNothing,
PluggedInStatus: prev_status is zero-initialised, so the first snapshot
already differs from it on the narrow comparator and the first tick emits
a line. -/
theorem fresh_engine_first_tick_refuted :
    ¬ ((engineRun ⟨0, 0, 156250⟩
        [⟨⟨1, 8, 100, 0, LIFETIME_UNKNOWN, LIFETIME_UNKNOWN⟩, 0,
            some 1000, 0⟩,
         ⟨⟨1, 8, 100, 0, LIFETIME_UNKNOWN, LIFETIME_UNKNOWN⟩, 1000,
            some 1000, 0⟩,
         ⟨⟨1, 8, 99, 0, LIFETIME_UNKNOWN, LIFETIME_UNKNOWN⟩, 2000,
            some 1000, 0⟩]).map (fun o => o.line)
      = [none, none, some (.pluggedIn 99 true true false)]) := by
  decide

/-- C6 amended: for the snapshot sequence 100 percent charging plugged-in,
the same again, then 99 percent charging plugged-in, a freshly started
engine decides PluggedInStatus 100 percent on the first tick (the
zero-initialised previous snapshot differs in percent, charging and
plugged-in), EmitNothing on the second tick, and PluggedInStatus 99
percent on the third tick, where only the percent change is detected by
the narrow comparator. -/
theorem fresh_engine_three_tick_decisions :
    (engineRun ⟨0, 0, 156250⟩
        [⟨⟨1, 8, 100, 0, LIFETIME_UNKNOWN, LIFETIME_UNKNOWN⟩, 0,
            some 1000, 0⟩,
         ⟨⟨1, 8, 100, 0, LIFETIME_UNKNOWN, LIFETIME_UNKNOWN⟩, 1000,
            some 1000, 0⟩,
         ⟨⟨1, 8, 99, 0, LIFETIME_UNKNOWN, LIFETIME_UNKNOWN⟩, 2000,
            some 1000, 0⟩]).map (fun o => o.line)
      = [some (.pluggedIn 100 true true false), none,
         some (.pluggedIn 99 true true false)] := by
  decide

/-- C5 counterexample: the claim reads branch 5 as using the averaged
lifetime whenever the averager is enabled.  Take a discharging snapshot at
50 percent with a known raw lifetime of 5000 s, no suppression, the
averager enabled but its output LIFETIME_UNKNOWN this tick (reachable: a
resume detected in verbose mode clears the history while suppress_lifetime
stays false, as does a raw lifetime of 0).  The code falls back to the raw
value and the literal spec chain does not, so the chains disagree. -/
theorem reporter_chain_literal_refuted :
    decideOneLiner ⟨0, 0, 50, 0, 5000, 5000⟩ false false LIFETIME_UNKNOWN
        (-5)
      ≠ reporterSpecLiteral false false 50 false 5000 false false (-5)
          true LIFETIME_UNKNOWN := by
  decide

/-- C5 amended: the one-liner decision chain follows the claimed
first-match-wins order (NoBattery; revival-suppressed percent-only; fully
charged; plugged-in status; lifetime remaining; percent-only fallback),
with branch 5 using the averaged lifetime when the averager is enabled and
produced a valid (non-Unknown) average this tick, else the raw value.  The
hypothesis records that a disabled averager always reports
LIFETIME_UNKNOWN, as in the source where average_lifetime keeps its
initialiser when lifetime_span_minutes is 0. -/
theorem reporter_chain_amended (s : SYSTEM_POWER_STATUS)
    (suppress_charge_state suppress_lifetime : Bool)
    (average_lifetime : Nat) (rate : Int) (averagerEnabled : Bool)
    (h : averagerEnabled = false → average_lifetime = LIFETIME_UNKNOWN) :
    decideOneLiner s suppress_charge_state suppress_lifetime
        average_lifetime rate
      = reporterSpecAmended (NO_BATTERY s) suppress_charge_state
          s.BatteryLifePercent suppress_lifetime s.BatteryLifeTime
          (PLUGGED_IN s) (CHARGING s) rate averagerEnabled
          average_lifetime := by
  cases averagerEnabled with
  | false =>
    have hu := h rfl
    simp [decideOneLiner, reporterSpecAmended, hu]
  | true =>
    simp [decideOneLiner, reporterSpecAmended]

/-- Witness for the amended C5 theorem at a concrete input. -/
theorem reporter_chain_amended_witness :
    decideOneLiner ⟨0, 0, 50, 0, 5000, 5000⟩ false false 600 (-5)
      = reporterSpecAmended (NO_BATTERY ⟨0, 0, 50, 0, 5000, 5000⟩) false
          ((⟨0, 0, 50, 0, 5000, 5000⟩ : SYSTEM_POWER_STATUS).BatteryLifePercent)
          false
          ((⟨0, 0, 50, 0, 5000, 5000⟩ : SYSTEM_POWER_STATUS).BatteryLifeTime)
          (PLUGGED_IN ⟨0, 0, 50, 0, 5000, 5000⟩)
          (CHARGING ⟨0, 0, 50, 0, 5000, 5000⟩) (-5) true 600 :=
  reporter_chain_amended ⟨0, 0, 50, 0, 5000, 5000⟩ false false 600 (-5)
    true (by decide)

/-- Helper: the time-adjusted value of an entry does not increase as the
current tick advances, for an entry recorded at or before both ticks and
no DWORD wraparound. -/
theorem adjustedLifetime_antitone (d : LifeData) (n1 n2 : Nat)
    (hd : d.tick ≤ n1) (h12 : n1 ≤ n2) (h2 : n2 < DWORD_MOD) :
    adjustedLifetime n2 d ≤ adjustedLifetime n1 d := by
  unfold adjustedLifetime
  rw [dsub_of_le hd (lt_of_le_of_lt h12 h2), dsub_of_le (le_trans hd h12) h2]
  have hdiv : (n1 - d.tick) / 1000 ≤ (n2 - d.tick) / 1000 :=
    Nat.div_le_div_right (by omega)
  split_ifs <;> omega

/-- Helper: the time-adjusted average of a two-entry history, unfolded. -/
theorem timeAdjustedAverage_pair (n : Nat) (d1 d2 : LifeData) :
    timeAdjustedAverage n [d1, d2]
      = (adjustedLifetime n d1 + (adjustedLifetime n d2 + 0)) / 2 := rfl

/-- C8: averaging decay.  For a history of two 600 s samples recorded
100 s apart in poll-tick time, the time-adjusted unweighted average does
not increase as the current tick advances past both samples (up to the
documented unhandled DWORD wraparound). -/
theorem averaging_decay (n1 n2 : Nat) (h1 : 100000 ≤ n1) (h12 : n1 ≤ n2)
    (h2 : n2 < DWORD_MOD) :
    timeAdjustedAverage n2 [⟨600, 0⟩, ⟨600, 100000⟩]
      ≤ timeAdjustedAverage n1 [⟨600, 0⟩, ⟨600, 100000⟩] := by
  have ha := adjustedLifetime_antitone ⟨600, 0⟩ n1 n2 (Nat.zero_le n1) h12 h2
  have hb := adjustedLifetime_antitone ⟨600, 100000⟩ n1 n2 h1 h12 h2
  rw [timeAdjustedAverage_pair, timeAdjustedAverage_pair]
  exact Nat.div_le_div_right
    (Nat.add_le_add ha (Nat.add_le_add hb (Nat.le_refl 0)))

/-- Witness for the C8 theorem at concrete ticks. -/
theorem averaging_decay_witness :
    timeAdjustedAverage 200000 [⟨600, 0⟩, ⟨600, 100000⟩]
      ≤ timeAdjustedAverage 100000 [⟨600, 0⟩, ⟨600, 100000⟩] :=
  averaging_decay 100000 200000 (by decide) (by decide) (by decide)

/-! ## Boundedness of the lifetime averager -/

theorem revivalStep_ticks (v now : Nat) (c : Bool) (st : RevivalState) :
    (revivalStep v now c st).1.ticks = revivalTicksUpdate now c st.ticks := by
  unfold revivalStep
  dsimp only
  split
  · split
    · split <;> rfl
    · rfl
  · rfl

theorem revivalClear_cases (now : Nat) (ticks : List Nat) :
    revivalClear now ticks = [] ∨ revivalClear now ticks = ticks := by
  unfold revivalClear
  cases hg : ticks.getLast? with
  | none => exact Or.inr rfl
  | some b =>
    dsimp only
    split_ifs
    · exact Or.inl rfl
    · exact Or.inr rfl

theorem mem_revivalClear (now : Nat) (ticks : List Nat) :
    ∀ x ∈ revivalClear now ticks, x ∈ ticks := by
  intro x hx
  rcases revivalClear_cases now ticks with h | h <;> rw [h] at hx
  · cases hx
  · exact hx

theorem mem_revivalTicksUpdate (now : Nat) (c : Bool) (ticks : List Nat) :
    ∀ x ∈ revivalTicksUpdate now c ticks, x ∈ ticks ∨ x = now := by
  intro x hx
  unfold revivalTicksUpdate at hx
  cases c with
  | false =>
    simp only [Bool.false_eq_true, if_false] at hx
    exact Or.inl (mem_revivalClear now ticks x hx)
  | true =>
    simp only [if_true] at hx
    rcases List.mem_append.mp hx with hx | hx
    · refine Or.inl (mem_revivalClear now ticks x ?_)
      split_ifs at hx
      · exact (List.tail_sublist _).subset hx
      · exact hx
    · right
      simpa using hx

theorem getLast?_mem_of_chain {l : List Nat} {x : Nat}
    (hx : l.getLast? = some x) : x ∈ l := by
  obtain ⟨ys, hys⟩ := List.getLast?_eq_some_iff.mp hx
  rw [hys]
  simp

theorem revivalClear_of_not_stale {now b : Nat} {ticks : List Nat}
    (hb : ticks.getLast? = some b)
    (hlt : dsub now b < revival_span_minutes * 60 * 1000) :
    revivalClear now ticks = ticks := by
  unfold revivalClear
  rw [hb]
  exact if_neg (not_le.mpr hlt)

theorem revivalClear_of_stale {now b : Nat} {ticks : List Nat}
    (hb : ticks.getLast? = some b)
    (hge : revival_span_minutes * 60 * 1000 ≤ dsub now b) :
    revivalClear now ticks = [] := by
  unfold revivalClear
  rw [hb]
  exact if_pos hge

theorem revivalTicksUpdate_inv (now : Nat) (c : Bool) (ticks : List Nat)
    (hlen : ticks.length ≤ max_changes)
    (hchain : List.Chain' (· ≤ ·) ticks)
    (hle : ∀ x ∈ ticks, x ≤ now) :
    (revivalTicksUpdate now c ticks).length ≤ max_changes ∧
      List.Chain' (· ≤ ·) (revivalTicksUpdate now c ticks) := by
  have hlen1 : (revivalClear now ticks).length ≤ max_changes := by
    rcases revivalClear_cases now ticks with h | h <;> rw [h]
    · simp [max_changes]
    · exact hlen
  have hchain1 : List.Chain' (· ≤ ·) (revivalClear now ticks) := by
    rcases revivalClear_cases now ticks with h | h <;> rw [h]
    · exact List.chain'_nil
    · exact hchain
  have hle1 : ∀ x ∈ revivalClear now ticks, x ≤ now :=
    fun x hx => hle x (mem_revivalClear now ticks x hx)
  unfold revivalTicksUpdate
  cases c with
  | false =>
    simp only [Bool.false_eq_true, if_false]
    exact ⟨hlen1, hchain1⟩
  | true =>
    simp only [if_true]
    have hbsub : (if (revivalClear now ticks).length = max_changes then
          (revivalClear now ticks).tail
        else revivalClear now ticks).Sublist (revivalClear now ticks) := by
      split_ifs
      · exact List.tail_sublist _
      · exact List.Sublist.refl _
    constructor
    · rw [List.length_append]
      split_ifs with h
      · simp only [List.length_tail, h]
        show max_changes - 1 + 1 ≤ max_changes
        decide
      · have hne : (revivalClear now ticks).length ≠ max_changes := h
        simp only [List.length_cons, List.length_nil]
        omega
    · rw [List.chain'_append]
      refine ⟨?_, by simp, ?_⟩
      · split_ifs
        · exact hchain1.tail
        · exact hchain1
      · intro x hx y hy
        have hxm := getLast?_mem_of_chain hx
        have hyn : y = now := by simpa [eq_comm] using hy
        rw [hyn]
        exact hle1 x (hbsub.subset hxm)

theorem revivalRunFrom_inv (v : Nat) :
    ∀ (inputs : List (Nat × Bool)) (st : RevivalState),
      (inputs.map Prod.fst).Pairwise (· ≤ ·) →
      st.ticks.length ≤ max_changes →
      List.Chain' (· ≤ ·) st.ticks →
      (∀ x ∈ st.ticks, ∀ i ∈ inputs, x ≤ i.1) →
      ∀ p ∈ revivalRunFrom v st inputs,
        p.1.ticks.length ≤ max_changes ∧
          List.Chain' (· ≤ ·) p.1.ticks := by
  intro inputs
  induction inputs with
  | nil => simp [revivalRunFrom]
  | cons i rest ih =>
    intro st hpw hlen hchain hle p hp
    simp only [revivalRunFrom] at hp
    have hstep := revivalTicksUpdate_inv i.1 i.2 st.ticks hlen hchain
      (fun x hx => hle x hx i (by simp))
    have hticks := revivalStep_ticks v i.1 i.2 st
    rw [List.map_cons] at hpw
    have hpw2 := List.pairwise_cons.mp hpw
    rcases List.mem_cons.mp hp with rfl | hp
    · exact ⟨by rw [hticks]; exact hstep.1, by rw [hticks]; exact hstep.2⟩
    · refine ih (revivalStep v i.1 i.2 st).1 hpw2.2
        (by rw [hticks]; exact hstep.1) (by rw [hticks]; exact hstep.2)
        ?_ p hp
      intro x hx j hj
      rw [hticks] at hx
      rcases mem_revivalTicksUpdate i.1 i.2 st.ticks x hx with hx | hx
      · exact hle x hx j (by simp [hj])
      · rw [hx]
        exact hpw2.1 j.1 (List.mem_map_of_mem Prod.fst hj)

/-- C7: revival window invariants.  First, over any run whose tick inputs
are non-decreasing, the window never holds more than max_changes entries
and its entries are non-decreasing.  Second, when the window is full and
not stale, a charge-state toggle evicts exactly the oldest entry and
appends the current tick (FIFO).  Third, when the gap between the current
tick and the newest entry reaches the 30-minute span, the window is
cleared entirely before the toggle, if any, is recorded. -/
theorem revival_window_invariants :
    (∀ (verbose : Nat) (inputs : List (Nat × Bool)),
      List.Chain' (· ≤ ·) (inputs.map Prod.fst) →
      ∀ p ∈ revivalRun verbose inputs,
        p.1.ticks.length ≤ max_changes ∧
          List.Chain' (· ≤ ·) p.1.ticks) ∧
    (∀ (now b : Nat) (ticks : List Nat),
      ticks.getLast? = some b →
      ticks.length = max_changes →
      dsub now b < revival_span_minutes * 60 * 1000 →
      revivalTicksUpdate now true ticks = ticks.tail ++ [now]) ∧
    (∀ (now b : Nat) (c : Bool) (ticks : List Nat),
      ticks.getLast? = some b →
      revival_span_minutes * 60 * 1000 ≤ dsub now b →
      revivalTicksUpdate now c ticks = if c then [now] else []) := by
  refine ⟨?_, ?_, ?_⟩
  · intro verbose inputs hmono p hp
    have hpw : (inputs.map Prod.fst).Pairwise (· ≤ ·) :=
      List.chain'_iff_pairwise.mp hmono
    exact revivalRunFrom_inv verbose inputs revivalInit hpw
      (by simp [revivalInit, max_changes]) List.chain'_nil
      (by simp [revivalInit]) p hp
  · intro now b ticks hb hlen hlt
    unfold revivalTicksUpdate
    rw [revivalClear_of_not_stale hb hlt]
    simp [hlen]
  · intro now b c ticks hb hge
    unfold revivalTicksUpdate
    rw [revivalClear_of_stale hb hge]
    cases c <;> simp [max_changes]

/-- Witness for the C7 theorem: each conjunct applied at a concrete
window. -/
theorem revival_window_invariants_witness :
    (((⟨[0], false⟩ : RevivalState), false).1.ticks.length ≤ max_changes ∧
      List.Chain' (· ≤ ·)
        (((⟨[0], false⟩ : RevivalState), false).1.ticks)) ∧
    revivalTicksUpdate 100 true (List.range 20)
      = (List.range 20).tail ++ [100] ∧
    revivalTicksUpdate 1800000 true [0]
      = (if true then [1800000] else []) := by
  refine ⟨?_, ?_, ?_⟩
  · exact revival_window_invariants.1 0 [(0, true)] (by simp)
      ((⟨[0], false⟩ : RevivalState), false) (by decide)
  · exact revival_window_invariants.2.1 100 19 (List.range 20) (by decide)
      (by decide) (by decide)
  · exact revival_window_invariants.2.2 1800000 0 true [0] (by decide)
      (by decide)

/-! ## Verbose mode never suppresses -/

theorem revivalStep_verbose (v now : Nat) (c : Bool) (st : RevivalState)
    (hv : 1 ≤ v) (hst : st.suppress_charge_state = false) :
    (revivalStep v now c st).1.suppress_charge_state = false := by
  have hvz : (v == 0) = false := by
    rw [beq_eq_false_iff_ne]
    omega
  unfold revivalStep
  dsimp only
  split
  · split
    · split
      · simp_all
      · simpa using hvz
    · rfl
  · rfl

theorem resumeStep_verbose (v : Nat) (fs : Bool) (mti : Nat)
    (lw : Option Nat) (now : Nat) (st : ResumeState) (hv : 1 ≤ v) :
    (resumeStep v fs mti lw now st).st.suppress_lifetime = false := by
  have hvz : (v == 0) = false := by
    rw [beq_eq_false_iff_ne]
    omega
  unfold resumeStep
  cases lw with
  | none => rfl
  | some w =>
    dsimp only
    split_ifs <;> first | rfl | simpa using hvz

theorem engineStatesFrom_verbose (cfg : EngineConfig)
    (hv : 1 ≤ cfg.verbose) :
    ∀ (inputs : List TickInput) (st : EngineState),
      st.revival.suppress_charge_state = false →
      ∀ s ∈ engineStatesFrom cfg st inputs,
        s.revival.suppress_charge_state = false ∧
          s.resume.suppress_lifetime = false := by
  intro inputs
  induction inputs with
  | nil => simp [engineStatesFrom]
  | cons i rest ih =>
    intro st hst s hs
    simp only [engineStatesFrom] at hs
    have hrev : (engineStep cfg st i).1.revival.suppress_charge_state
        = false := by
      show (revivalStep cfg.verbose i.now
        (CHARGING i.status ≠ CHARGING st.prev_status)
        st.revival).1.suppress_charge_state = false
      exact revivalStep_verbose _ _ _ _ hv hst
    have hres : (engineStep cfg st i).1.resume.suppress_lifetime
        = false := by
      show (resumeStep cfg.verbose
        (decide (0 < cfg.verbose ∧
          ComparePowerStatus st.prev_status i.status = .CPS_NOTEQUAL))
        cfg.MaximumTimerInterval i.lastwake i.now
        st.resume).st.suppress_lifetime = false
      exact resumeStep_verbose _ _ _ _ _ _ hv
    rcases List.mem_cons.mp hs with rfl | hs
    · exact ⟨hrev, hres⟩
    · exact ih (engineStep cfg st i).1 hrev s hs

/-- C10: in verbose mode suppression never engages.  For any run with
verbose at least 1, after every tick both suppress_charge_state and
suppress_lifetime are false: at the points where the revival and resume
conditions hold, the source assigns the negation of verbose to them, and
everywhere else it assigns false. -/
theorem verbose_never_suppresses (cfg : EngineConfig)
    (hv : 1 ≤ cfg.verbose) (inputs : List TickInput) :
    ∀ s ∈ engineStates cfg inputs,
      s.revival.suppress_charge_state = false ∧
        s.resume.suppress_lifetime = false :=
  engineStatesFrom_verbose cfg hv inputs engineInit rfl

/-- Witness for the C10 theorem: a one-tick verbose run whose state after
the tick is the initial state again. -/
theorem verbose_never_suppresses_witness :
    engineInit.revival.suppress_charge_state = false ∧
      engineInit.resume.suppress_lifetime = false :=
  verbose_never_suppresses ⟨1, 0, 156250⟩ (by decide)
    [⟨⟨0, 0, 0, 0, 0, 0⟩, 0, none, 0⟩] engineInit (by decide)

end Battstatus
